import Mathlib

/-!
Verification of the balanced-holdout sampling and misclassification-reporting
procedure of the Legalese_Mortgage_Documents repository
(Notebooks/4-Predicting_Small_Trigger_Classes.ipynb).

The notebook operates on a pandas DataFrame with one row per sentence and one
0/1 indicator column per trigger category.  We embed a DataFrame as a list of
(index, row) pairs, where a row carries the text columns and an association
list from category name to indicator value.  `sklearn.utils.resample` with
`replace=False` and a fixed `random_state` is modelled as a deterministic
without-replacement draw (a seeded Fisher-Yates selection driven by a linear
congruential generator); the model keeps the two properties the notebook
relies on: given `random_state` it is a pure function of its inputs, it
returns exactly `n_samples` elements of the population, and it fails
(sklearn raises ValueError) when `n_samples` exceeds the population size.
-/

namespace Legalese

/-- The category (indicator) columns of the dataset, in the column order used
by the notebook. -/
def categories : List String :=
  ["loan_default", "aggregate_dscr_fall", "dscr_fall", "unspecified",
   "debt_yield_fall", "aggregate_debt_yield_fall", "mezzanine_default",
   "tenant_failure", "mezzanine_outstanding", "operator_termination",
   "bankruptcy", "sponsor_termination", "renovations", "nontrigger",
   "sff", "delayed_repayment"]

/-- One row of the loaded dataset: the text columns plus the indicator
columns, stored as an association list from category name to 0/1 value.
A category absent from the list is read as 0. -/
structure Row where
  document : String
  sentence : String
  sentenceTokens : String
  sentenceLemmas : String
  ind : List (String × Nat)
deriving DecidableEq

/-- Value of an indicator column in a row (0 when absent). -/
def Row.get (r : Row) (c : String) : Nat :=
  ((r.ind.find? (fun p => p.1 == c)).map Prod.snd).getD 0

/-- The derived `Total` column: `downsampling_set.sum(axis=1)`, the row-wise
sum of the numeric (indicator) columns. -/
def Row.total (r : Row) : Nat := (r.ind.map Prod.snd).sum

/-- A DataFrame: a list of (pandas index, row) pairs. -/
abbrev Frame := List (Nat × Row)

/-- A labelled DataFrame: rows carrying the derived `istrigger` column. -/
abbrev LFrame := List (Nat × Row × Nat)

/-- Column sum over a frame: `frame[c].sum(axis=0)`.  The derived `Total`
column sums the row totals. -/
def colSum (df : Frame) (c : String) : Nat :=
  if c = "Total" then (df.map (fun p => p.2.total)).sum
  else (df.map (fun p => p.2.get c)).sum

/-- Column sum over a labelled frame. -/
def colSumL (df : LFrame) (c : String) : Nat :=
  (df.map (fun p => p.2.1.get c)).sum

/-- `downsampling_set = downsampling_set[downsampling_set.Total.isin([1,2])]`:
keep only rows whose indicator total is 1 or 2. -/
def filterTotal (df : Frame) : Frame :=
  df.filter (fun p => p.2.total == 1 || p.2.total == 2)

/-- The numeric columns remaining after dropping the four text columns:
the category columns followed by the derived `Total` column. -/
def frameCols : List String := categories ++ ["Total"]

/-- The large-category selection: among the numeric columns, keep those whose
column sum over the filtered set strictly exceeds `n`, then remove `Total`,
`nontrigger` and `unspecified`. -/
def trigger_cols (ds : Frame) (n : Nat) : List String :=
  (frameCols.filter (fun c => decide (n < colSum ds c))).filter
    (fun c => !(["Total", "nontrigger", "unspecified"].contains c))

/-- Linear congruential step used to model the seeded random stream of the
`random_state` argument of `sklearn.utils.resample`. -/
def lcg (s : Nat) : Nat := (1103515245 * s + 12345) % 2 ^ 31

/-- Deterministic without-replacement draw of `n` elements from `pop`,
seeded Fisher-Yates selection.  Model of the row selection performed by
`sklearn.utils.resample(replace=False, random_state=seed)`. -/
def sampleWR {α : Type} : Nat → Nat → List α → List α
  | _, 0, _ => []
  | seed, m + 1, pop =>
    if hp : seed % pop.length < pop.length then
      pop.get ⟨seed % pop.length, hp⟩ ::
        sampleWR (lcg seed) m (pop.eraseIdx (seed % pop.length))
    else []

/-- Model of `sklearn.utils.resample(pop, replace=False, n_samples, random_state)`:
raises ValueError when `n_samples` exceeds the population size, otherwise
returns the deterministic draw. -/
def resample (pop : Frame) (n_samples : Nat) (random_state : Nat) :
    Except String Frame :=
  if pop.length < n_samples then
    Except.error ("ValueError: cannot take a larger sample than population")
  else Except.ok (sampleWR random_state n_samples pop)

/-- The per-category sampling population:
`downsampling_set[downsampling_set[col] == 1]`. -/
def triggerPop (ds : Frame) (col : String) : Frame :=
  ds.filter (fun p => p.2.get col == 1)

/-- The `for col in trigger_cols` loop: draw `n` rows from each large
category population and concatenate the draws in order. -/
def sampleTriggers (ds : Frame) (n rs : Nat) : List String → Except String Frame
  | [] => Except.ok []
  | col :: rest =>
    match resample (triggerPop ds col) n rs with
    | Except.error e => Except.error e
    | Except.ok s =>
      match sampleTriggers ds n rs rest with
      | Except.error e => Except.error e
      | Except.ok r => Except.ok (s ++ r)

/-- `np.where(row.nontrigger > 0, 0, 1)`: the derived binary label. -/
def istrigger (r : Row) : Nat := if 0 < r.get ("nontrigger") then 0 else 1

/-- Attach the derived `istrigger` column to a row. -/
def addIst (p : Nat × Row) : Nat × Row × Nat := (p.1, p.2, istrigger p.2)

/-- The columns kept by the `in_train_set` computation: every category column
except `unspecified` (the text columns and `Total` are dropped). -/
def in_train_cols : List String := categories.filter (fun c => c ≠ "unspecified")

/-- `in_train_set = (downsampling_set.drop([...], axis=1).sum(axis=0) > n)`:
per category (except `unspecified`), whether its column sum over the
filtered set strictly exceeds `n`. -/
def in_train_set_of (ds : Frame) (n : Nat) : List (String × Bool) :=
  in_train_cols.map (fun c => (c, decide (n < colSum ds c)))

/-- `downsampling_data_set(df, threshold)` with the fixed `RANDOM_STATE`
made an explicit argument `rs`.  Computes `Total`, filters to totals 1 or 2,
selects the large categories, draws `threshold` rows per large category and
an equal total of `nontrigger` rows, removes all drawn indices from the full
dataset to form the evaluation set, attaches `istrigger`, and reports which
categories exceeded the threshold.  When the large-category set is empty the
Python loop never assigns the local variable `samples`, so the subsequent
`samples.shape[0]` raises UnboundLocalError; that exception is the
`Except.error` of the first branch. -/
def downsampling_data_set (df : Frame) (threshold rs : Nat) :
    Except String (LFrame × LFrame × List (String × Bool)) :=
  let downsampling_set := filterTotal df
  let n := threshold
  let tcols := trigger_cols downsampling_set n
  if tcols.isEmpty then
    Except.error ("UnboundLocalError: samples referenced before assignment")
  else
    match sampleTriggers downsampling_set n rs tcols with
    | Except.error e => Except.error e
    | Except.ok samples0 =>
      match resample (triggerPop downsampling_set ("nontrigger"))
          samples0.length rs with
      | Except.error e => Except.error e
      | Except.ok ntDraw =>
        let samples1 := samples0 ++ ntDraw
        let rmv_index := samples1.map Prod.fst
        Except.ok
          (samples1.map addIst,
           (df.filter (fun p => !(rmv_index.contains p.1))).map addIst,
           in_train_set_of downsampling_set n)

/-- A pandas/numpy float value as far as the report needs it: a rational
number, `nan` (0/0), or a signed infinity (x/0 with x nonzero).  pandas does
not raise on division by zero; it produces one of these values. -/
inductive PandasFloat where
  | nan : PandasFloat
  | inf : PandasFloat
  | neginf : PandasFloat
  | val : Rat → PandasFloat
deriving DecidableEq

/-- pandas element-wise division `a / b`: division by zero yields `nan`
for `0/0` and a signed infinity otherwise, instead of raising. -/
def pdiv (a b : Rat) : PandasFloat :=
  if b = 0 then
    if a = 0 then PandasFloat.nan
    else if 0 < a then PandasFloat.inf else PandasFloat.neginf
  else PandasFloat.val (a / b)

/-- `1 - x` on pandas floats. -/
def oneMinus : PandasFloat → PandasFloat
  | PandasFloat.nan => PandasFloat.nan
  | PandasFloat.inf => PandasFloat.neginf
  | PandasFloat.neginf => PandasFloat.inf
  | PandasFloat.val q => PandasFloat.val (1 - q)

/-- Floor of a rational number, via flooring integer division. -/
def ratFloor (q : Rat) : Int := Int.fdiv q.num q.den

/-- Round half to even to the nearest integer (the rounding used by
`numpy`/`pandas.round`). -/
def rhe (q : Rat) : Int :=
  let f := ratFloor q
  let r := q - (f : Rat)
  if r < 1 / 2 then f
  else if 1 / 2 < (r : Rat) then f + 1
  else if f % 2 = 0 then f else f + 1

/-- `Series.round(1)`: round to one decimal place, half to even. -/
def round1 (q : Rat) : Rat := (rhe (q * 10) : Rat) / 10

/-- `round(1)` lifted to pandas floats (`nan` and infinities round to
themselves). -/
def round1p : PandasFloat → PandasFloat
  | PandasFloat.val q => PandasFloat.val (round1 q)
  | x => x

/-- One row of the `misclassified_results` table. -/
structure ReportRow where
  category : String
  full_test_set : Nat
  num_misclassified : Nat
  percent_misclassified : PandasFloat
  in_train_set : String
deriving DecidableEq

/-- Lookup of a category in the `in_train_set` record (an index-keyed
boolean frame). -/
def lookupB (l : List (String × Bool)) (c : String) : Option Bool :=
  (l.find? (fun p => p.1 == c)).map Prod.snd

/-- Construction of the rows of `misclassified_results`: for each category
column, the evaluation-set column sum (`full_test_set`), the column sum over
the misclassified rows (`num_misclassified`), the rounded percentage, and
the `yes`/`no` annotation from the inner join with `in_train_set` (a
category missing from `in_train_set` is dropped by the join). -/
def reportRows (cols : List String) (filtered misclassified : LFrame)
    (itr : List (String × Bool)) : List ReportRow :=
  cols.filterMap (fun c =>
    match lookupB itr c with
    | none => none
    | some b =>
      some { category := c, full_test_set := colSumL filtered c,
             num_misclassified := colSumL misclassified c,
             percent_misclassified := round1p (pdiv
               (100 * (colSumL misclassified c : Rat))
               (colSumL filtered c : Rat)),
             in_train_set := if b then "yes" else "no" })

/-- The rows of the evaluation set the model got wrong:
`results[results.prediction != results.actual]`, with the prediction for
each row given by `pred` on its index and the actual label the derived
`istrigger` column. -/
def misclassifiedRows (pred : Nat → Nat) (filtered : LFrame) : LFrame :=
  filtered.filter (fun p => !(pred p.1 == p.2.2))

/-- `misclassification(...)`: build the per-category report over the
evaluation set `filtered`, its misclassified rows, and the `in_train_set`
record. -/
def misclassification (pred : Nat → Nat) (filtered : LFrame)
    (itr : List (String × Bool)) : List ReportRow :=
  reportRows categories filtered (misclassifiedRows pred filtered) itr

/-- `small_class_predict_correct`: one minus the ratio of the summed
`num_misclassified` to the summed `full_test_set` over the report rows with
`in_train_set == 'no'`. -/
def small_class_predict_correct (report : List ReportRow) : PandasFloat :=
  let noRows := report.filter (fun r => r.in_train_set == "no")
  let num : Nat := (noRows.map (fun r => r.num_misclassified)).sum
  let tot : Nat := (noRows.map (fun r => r.full_test_set)).sum
  oneMinus (pdiv (num : Rat) (tot : Rat))

/-! ### Properties of the sampling primitives -/

theorem sampleWR_length {α : Type} (s n : Nat) (pop : List α) (h : n ≤ pop.length) :
    (sampleWR s n pop).length = n := by
  induction n generalizing s pop with
  | zero => rfl
  | succ m ih =>
    have hpos : 0 < pop.length := Nat.lt_of_lt_of_le (Nat.succ_pos m) h
    have hp : s % pop.length < pop.length := Nat.mod_lt _ hpos
    rw [sampleWR, dif_pos hp]
    have hlen : (pop.eraseIdx (s % pop.length)).length = pop.length - 1 := by
      rw [List.length_eraseIdx, if_pos hp]
    have h2 : m ≤ (pop.eraseIdx (s % pop.length)).length := by omega
    simp [ih _ _ h2]

theorem sampleWR_subset {α : Type} (s n : Nat) (pop : List α) :
    ∀ x ∈ sampleWR s n pop, x ∈ pop := by
  induction n generalizing s pop with
  | zero => intro x hx; simp [sampleWR] at hx
  | succ m ih =>
    intro x hx
    rw [sampleWR] at hx
    by_cases hp : s % pop.length < pop.length
    · rw [dif_pos hp] at hx
      rcases List.mem_cons.mp hx with h | h
      · subst h; exact List.get_mem pop _ hp
      · exact (List.eraseIdx_sublist pop (s % pop.length)).subset (ih _ _ x h)
    · rw [dif_neg hp] at hx
      cases hx

theorem resample_ok_iff {pop : Frame} {n rs : Nat} {l : Frame} :
    resample pop n rs = Except.ok l ↔ n ≤ pop.length ∧ l = sampleWR rs n pop := by
  unfold resample
  split
  · rename_i hlt
    constructor
    · intro h; cases h
    · intro ⟨hle, _⟩; omega
  · rename_i hlt
    rw [Nat.not_lt] at hlt
    constructor
    · intro h; injection h with h; exact ⟨hlt, h.symm⟩
    · intro ⟨_, h⟩; rw [h]

theorem triggerPop_mem {ds : Frame} {c : String} {p : Nat × Row}
    (h : p ∈ triggerPop ds c) : p ∈ ds ∧ p.2.get c = 1 := by
  have h2 := List.mem_filter.mp h
  exact ⟨h2.1, by simpa using h2.2⟩

theorem filterTotal_subset {df : Frame} {p : Nat × Row} (h : p ∈ filterTotal df) :
    p ∈ df := (List.mem_filter.mp h).1

theorem sampleTriggers_ok_length (ds : Frame) (n rs : Nat) :
    ∀ (cols : List String) (res : Frame),
      sampleTriggers ds n rs cols = Except.ok res → res.length = cols.length * n := by
  intro cols
  induction cols with
  | nil =>
    intro res h
    injection h with h
    simp [← h]
  | cons col rest ih =>
    intro res h
    rw [sampleTriggers] at h
    cases hres : resample (triggerPop ds col) n rs with
    | error e => rw [hres] at h; cases h
    | ok s =>
      rw [hres] at h
      cases hrest : sampleTriggers ds n rs rest with
      | error e => rw [hrest] at h; cases h
      | ok r =>
        rw [hrest] at h
        injection h with h
        subst h
        obtain ⟨hle, hs⟩ := resample_ok_iff.mp hres
        have h1 : s.length = n := by rw [hs]; exact sampleWR_length _ _ _ hle
        have h2 : r.length = rest.length * n := ih r hrest
        rw [List.length_append, h1, h2, List.length_cons, Nat.succ_mul]
        omega

theorem sampleTriggers_ok_mem (ds : Frame) (n rs : Nat) :
    ∀ (cols : List String) (res : Frame),
      sampleTriggers ds n rs cols = Except.ok res →
      ∀ p ∈ res, ∃ c ∈ cols, p ∈ triggerPop ds c := by
  intro cols
  induction cols with
  | nil =>
    intro res h p hp
    injection h with h
    rw [← h] at hp
    cases hp
  | cons col rest ih =>
    intro res h p hp
    rw [sampleTriggers] at h
    cases hres : resample (triggerPop ds col) n rs with
    | error e => rw [hres] at h; cases h
    | ok s =>
      rw [hres] at h
      cases hrest : sampleTriggers ds n rs rest with
      | error e => rw [hrest] at h; cases h
      | ok r =>
        rw [hrest] at h
        injection h with h
        subst h
        rcases List.mem_append.mp hp with hmem | hmem
        · obtain ⟨_, hs⟩ := resample_ok_iff.mp hres
          rw [hs] at hmem
          exact ⟨col, List.mem_cons_self _ _, sampleWR_subset _ _ _ p hmem⟩
        · obtain ⟨c, hc, hpc⟩ := ih r hrest p hmem
          exact ⟨c, List.mem_cons_of_mem _ hc, hpc⟩

/-- Characterization of a successful run of `downsampling_data_set`:
the large-category set is nonempty, each phase of the draw succeeded, and
the three returned components are the concatenated draws, the full dataset
minus the drawn indices, and the threshold record over the filtered set. -/
theorem downsampling_ok {df : Frame} {n rs : Nat} {samples filtered : LFrame}
    {itr : List (String × Bool)}
    (h : downsampling_data_set df n rs = Except.ok (samples, filtered, itr)) :
    ∃ samples0 ntDraw : Frame,
      sampleTriggers (filterTotal df) n rs (trigger_cols (filterTotal df) n) =
        Except.ok samples0 ∧
      resample (triggerPop (filterTotal df) ("nontrigger")) samples0.length rs =
        Except.ok ntDraw ∧
      samples = (samples0 ++ ntDraw).map addIst ∧
      filtered = (df.filter
        (fun p => !(((samples0 ++ ntDraw).map Prod.fst).contains p.1))).map addIst ∧
      itr = in_train_set_of (filterTotal df) n ∧
      (trigger_cols (filterTotal df) n).isEmpty = false := by
  simp only [downsampling_data_set] at h
  split at h
  · cases h
  · rename_i hne
    split at h
    · cases h
    · rename_i samples0 hs0
      split at h
      · cases h
      · rename_i ntDraw hnt
        injection h with h
        rw [Prod.mk.injEq] at h
        obtain ⟨h1, h23⟩ := h
        rw [Prod.mk.injEq] at h23
        obtain ⟨h2, h3⟩ := h23
        exact ⟨samples0, ntDraw, hs0, hnt, h1.symm, h2.symm, h3.symm,
          Bool.not_eq_true _ ▸ hne⟩

/-! ### Concrete datasets used to instantiate the theorems -/

/-- A sentence labelled only `loan_default`. -/
def rowLD : Row := ⟨"", "", "", "", [("loan_default", 1)]⟩

/-- A sentence labelled only `nontrigger`. -/
def rowNT : Row := ⟨"", "", "", "", [("nontrigger", 1)]⟩

/-- A sentence carrying three trigger labels (its `Total` is 3, so it is
excluded from the sampling pool). -/
def rowTriple : Row :=
  ⟨"", "", "", "", [("loan_default", 1), ("dscr_fall", 1), ("bankruptcy", 1)]⟩

/-- A small dataset: six `loan_default` sentences and six `nontrigger`
sentences.  With threshold 5 the run succeeds. -/
def dfW : Frame :=
  [(0, rowLD), (1, rowLD), (2, rowLD), (3, rowLD), (4, rowLD), (5, rowLD),
   (6, rowNT), (7, rowNT), (8, rowNT), (9, rowNT), (10, rowNT), (11, rowNT)]

/-- `dfW` plus one triple-labelled sentence, which stays out of the sampling
pool but remains in the evaluation set. -/
def dfC2 : Frame := dfW ++ [(12, rowTriple)]

/-- `dfW` plus twelve triple-labelled sentences: `bankruptcy` occurs 12 times
in the full dataset but 0 times in the Total-filtered subset. -/
def dfC5 : Frame :=
  dfW ++ [(12, rowTriple), (13, rowTriple), (14, rowTriple), (15, rowTriple),
          (16, rowTriple), (17, rowTriple), (18, rowTriple), (19, rowTriple),
          (20, rowTriple), (21, rowTriple), (22, rowTriple), (23, rowTriple)]

/-- The components of the successful run of the sampler on `dfW` with
threshold 5 and seed 99. -/
def okParts (r : Except String (LFrame × LFrame × List (String × Bool))) :
    LFrame × LFrame × List (String × Bool) :=
  r.toOption.getD ([], [], [])

/-- Training set of the reference run on `dfW`. -/
def sW : LFrame := (okParts (downsampling_data_set dfW 5 99)).1

/-- Evaluation set of the reference run on `dfW`. -/
def fW : LFrame := (okParts (downsampling_data_set dfW 5 99)).2.1

/-- `in_train_set` record of the reference run on `dfW`. -/
def iW : List (String × Bool) := (okParts (downsampling_data_set dfW 5 99)).2.2

/-! ### C1: determinism of the sampler -/

/-- C1: for every input dataset, threshold and fixed seed, two runs of
`downsampling_data_set` on the same dataset with the same threshold and seed
produce identical training-set and evaluation-set index sequences, and in
fact bit-for-bit identical results.  The seeded random draw of
`sklearn.utils.resample` is deterministic given `random_state`, so the
sampler is a pure function of (dataset, threshold, seed). -/
theorem downsampling_deterministic (df : Frame) (threshold rs : Nat)
    (r1 r2 : Except String (LFrame × LFrame × List (String × Bool)))
    (h1 : downsampling_data_set df threshold rs = r1)
    (h2 : downsampling_data_set df threshold rs = r2) :
    r1.toOption.map (fun t => t.1.map Prod.fst) =
      r2.toOption.map (fun t => t.1.map Prod.fst) ∧
    r1.toOption.map (fun t => t.2.1.map Prod.fst) =
      r2.toOption.map (fun t => t.2.1.map Prod.fst) ∧
    r1 = r2 := by
  subst h1
  subst h2
  exact ⟨rfl, rfl, rfl⟩

/-- Witness for C1: the sampler run on a concrete 12-row dataset with
threshold 5 and seed 99 twice yields the same concrete partition. -/
theorem downsampling_deterministic_witness :
    (downsampling_data_set dfW 5 99).toOption.map (fun t => t.1.map Prod.fst) =
      (Except.ok (sW, fW, iW) : Except String
        (LFrame × LFrame × List (String × Bool))).toOption.map
        (fun t => t.1.map Prod.fst) ∧
    (downsampling_data_set dfW 5 99).toOption.map (fun t => t.2.1.map Prod.fst) =
      (Except.ok (sW, fW, iW) : Except String
        (LFrame × LFrame × List (String × Bool))).toOption.map
        (fun t => t.2.1.map Prod.fst) ∧
    downsampling_data_set dfW 5 99 =
      Except.ok (sW, fW, iW) :=
  downsampling_deterministic dfW 5 99 _ _ rfl rfl

/-! ### C3: the training and evaluation sets partition the dataset -/

/-- C3: for every successful run, the training set and the evaluation set
are disjoint by row index, and the union of their index sets is exactly the
index set of the full loaded dataset. -/
theorem train_eval_partition (df : Frame) (n rs : Nat)
    (samples filtered : LFrame) (itr : List (String × Bool))
    (h : downsampling_data_set df n rs = Except.ok (samples, filtered, itr)) :
    (∀ i ∈ samples.map Prod.fst, i ∉ filtered.map Prod.fst) ∧
    (∀ i, i ∈ df.map Prod.fst ↔
      (i ∈ samples.map Prod.fst ∨ i ∈ filtered.map Prod.fst)) := by
  obtain ⟨s0, nt, hs0, hnt, hsamp, hfilt, hitr, hne⟩ := downsampling_ok h
  subst hsamp
  subst hfilt
  have hfst : ∀ l : Frame, (l.map addIst).map Prod.fst = l.map Prod.fst := by
    intro l
    rw [List.map_map]
    rfl
  rw [hfst, hfst]
  have hdf : ∀ p ∈ s0 ++ nt, p ∈ df := by
    intro p hp
    rcases List.mem_append.mp hp with hm | hm
    · obtain ⟨c, _, hpc⟩ := sampleTriggers_ok_mem _ _ _ _ _ hs0 p hm
      exact filterTotal_subset (triggerPop_mem hpc).1
    · obtain ⟨_, hnt2⟩ := resample_ok_iff.mp hnt
      rw [hnt2] at hm
      exact filterTotal_subset (triggerPop_mem (sampleWR_subset _ _ _ p hm)).1
  constructor
  · intro i hi hif
    obtain ⟨p, hp, hpi⟩ := List.mem_map.mp hif
    have hcond := (List.mem_filter.mp hp).2
    rw [Bool.not_eq_true', ← Bool.not_eq_true] at hcond
    apply hcond
    rw [List.contains, List.elem_iff, hpi]
    exact hi
  · intro i
    constructor
    · intro hi
      by_cases hmem : i ∈ (s0 ++ nt).map Prod.fst
      · exact Or.inl hmem
      · refine Or.inr ?_
        obtain ⟨p, hp, hpi⟩ := List.mem_map.mp hi
        refine List.mem_map.mpr ⟨p, List.mem_filter.mpr ⟨hp, ?_⟩, hpi⟩
        rw [Bool.not_eq_true', ← Bool.not_eq_true]
        intro hcont
        apply hmem
        rw [List.contains, List.elem_iff, hpi] at hcont
        exact hcont
    · intro hi
      rcases hi with hi | hi
      · obtain ⟨p, hp, hpi⟩ := List.mem_map.mp hi
        exact List.mem_map.mpr ⟨p, hdf p hp, hpi⟩
      · obtain ⟨p, hp, hpi⟩ := List.mem_map.mp hi
        exact List.mem_map.mpr ⟨p, (List.mem_filter.mp hp).1, hpi⟩

/-- Witness for C3: on the reference run, row index 0 belongs to the full
dataset, hence to the training set or the evaluation set. -/
theorem train_eval_partition_witness :
    (0 : Nat) ∈ dfW.map Prod.fst ↔
      ((0 : Nat) ∈ sW.map Prod.fst ∨ (0 : Nat) ∈ fW.map Prod.fst) :=
  (train_eval_partition dfW 5 99 sW fW iW rfl).2 0

/-! ### C4: behaviour when no category exceeds the threshold -/

/-- C4 counterexample: with every category occurrence count at or below the
threshold (here threshold 100 on the 12-row dataset), `downsampling_data_set`
does NOT complete and return an empty training set; the Python local
variable `samples` is never assigned, so the function raises
UnboundLocalError.  This refutes the claim that the degenerate run completes
without an exception. -/
theorem empty_large_set_raises_cex :
    downsampling_data_set dfW 100 99 =
      Except.error ("UnboundLocalError: samples referenced before assignment") := by
  rfl

/-- C4 (amended): whenever the large-category set is empty, the sampler
raises UnboundLocalError (the loop body that would assign `samples` never
runs) instead of returning an empty training set. -/
theorem empty_large_set_raises (df : Frame) (n rs : Nat)
    (h : trigger_cols (filterTotal df) n = []) :
    downsampling_data_set df n rs =
      Except.error ("UnboundLocalError: samples referenced before assignment") := by
  simp only [downsampling_data_set, h]
  rfl

/-- Witness for the amended C4, at threshold 50 on the concrete dataset. -/
theorem empty_large_set_raises_witness :
    downsampling_data_set dfW 50 99 =
      Except.error ("UnboundLocalError: samples referenced before assignment") :=
  empty_large_set_raises dfW 50 99 (by decide)

/-! ### C2: sizes of the training and evaluation sets -/

/-- Dropping from a frame the rows whose index occurs in `rmv` removes one
row per distinct `rmv` index, provided the frame's indices are distinct and
every `rmv` index occurs in the frame. -/
theorem length_filter_not_mem (df : Frame) (rmv : List Nat)
    (hnd : (df.map Prod.fst).Nodup) (hsub : ∀ i ∈ rmv, i ∈ df.map Prod.fst) :
    (df.filter (fun p => !(rmv.contains p.1))).length =
      df.length - rmv.dedup.length := by
  have hsplit := List.length_eq_length_filter_add
    (l := df) (fun p => rmv.contains p.1)
  have h1 : (df.filter (fun p => rmv.contains p.1)).length = rmv.dedup.length := by
    have hmapfilter :
        (df.map Prod.fst).filter (fun i => rmv.contains i) =
          (df.filter (fun p => rmv.contains p.1)).map Prod.fst :=
      by rw [List.filter_map]; rfl
    have hLnd : ((df.map Prod.fst).filter (fun i => rmv.contains i)).Nodup :=
      hnd.filter _
    have hmem : ∀ a, a ∈ (df.map Prod.fst).filter (fun i => rmv.contains i) ↔
        a ∈ rmv.dedup := by
      intro a
      rw [List.mem_filter, List.mem_dedup, List.contains, List.elem_iff]
      constructor
      · intro h; exact h.2
      · intro h; exact ⟨hsub a h, h⟩
    have hperm := (List.perm_ext_iff_of_nodup hLnd rmv.nodup_dedup).mpr hmem
    have hlen := hperm.length_eq
    rw [hmapfilter, List.length_map] at hlen
    exact hlen
  omega

/-- C2 counterexample: on a 13-row dataset containing one sentence with
three indicators (`Total = 3`), the evaluation set has 3 rows, while the
Total-filtered dataset has 12 rows and 10 distinct indices are drawn:
the claim predicts an evaluation-set size of 12 - 10 = 2, not 3, because
the code removes the drawn indices from the FULL dataset, so the
`Total = 3` row stays in the evaluation set. -/
theorem training_eval_counts_cex :
    (downsampling_data_set dfC2 5 99).toOption.map (fun r => r.2.1.length) =
      some 3 ∧
    (filterTotal dfC2).length = 12 ∧
    (downsampling_data_set dfC2 5 99).toOption.map
      (fun r => ((r.1.map Prod.fst).dedup).length) = some 10 ∧
    (3 : Nat) ≠ 12 - 10 := by
  refine ⟨rfl, rfl, rfl, by decide⟩

/-- C2 (amended): for every successful run on a dataset with distinct row
indices, the training set consists of exactly `|L| * n` trigger-drawn rows
followed by exactly `|L| * n` nontrigger-drawn rows (duplicate indices not
collapsed), and the evaluation set's row count equals the FULL dataset's row
count minus the number of distinct indices drawn (the code drops the drawn
indices from the full dataset, not from the Total-filtered subset). -/
theorem training_eval_counts (df : Frame) (n rs : Nat)
    (samples filtered : LFrame) (itr : List (String × Bool))
    (hnd : (df.map Prod.fst).Nodup)
    (h : downsampling_data_set df n rs = Except.ok (samples, filtered, itr)) :
    samples.length =
      (trigger_cols (filterTotal df) n).length * n +
        (trigger_cols (filterTotal df) n).length * n ∧
    (∀ p ∈ samples.take ((trigger_cols (filterTotal df) n).length * n),
      ∃ c ∈ trigger_cols (filterTotal df) n, p.2.1.get c = 1) ∧
    (∀ p ∈ samples.drop ((trigger_cols (filterTotal df) n).length * n),
      p.2.1.get ("nontrigger") = 1) ∧
    filtered.length = df.length - ((samples.map Prod.fst).dedup).length := by
  obtain ⟨s0, nt, hs0, hnt, hsamp, hfilt, hitr, hne⟩ := downsampling_ok h
  obtain ⟨hle, hntdef⟩ := resample_ok_iff.mp hnt
  have hs0len : s0.length = (trigger_cols (filterTotal df) n).length * n :=
    sampleTriggers_ok_length _ _ _ _ _ hs0
  have hntlen : nt.length = (trigger_cols (filterTotal df) n).length * n := by
    rw [hntdef, sampleWR_length _ _ _ hle, hs0len]
  subst hsamp
  subst hfilt
  have hfst : ((s0 ++ nt).map addIst).map Prod.fst = (s0 ++ nt).map Prod.fst := by
    rw [List.map_map]; rfl
  have htake : ((s0 ++ nt).map addIst).take
      ((trigger_cols (filterTotal df) n).length * n) = s0.map addIst := by
    rw [List.map_append, ← hs0len, ← List.length_map s0 addIst, List.take_left]
  have hdrop : ((s0 ++ nt).map addIst).drop
      ((trigger_cols (filterTotal df) n).length * n) = nt.map addIst := by
    rw [List.map_append, ← hs0len, ← List.length_map s0 addIst, List.drop_left]
  refine ⟨?_, ?_, ?_, ?_⟩
  · rw [List.length_map, List.length_append, hs0len, hntlen]
  · intro p hp
    rw [htake] at hp
    obtain ⟨q, hq, hpq⟩ := List.mem_map.mp hp
    obtain ⟨c, hc, hqc⟩ := sampleTriggers_ok_mem _ _ _ _ _ hs0 q hq
    refine ⟨c, hc, ?_⟩
    rw [← hpq]
    exact (triggerPop_mem hqc).2
  · intro p hp
    rw [hdrop] at hp
    obtain ⟨q, hq, hpq⟩ := List.mem_map.mp hp
    rw [hntdef] at hq
    have hqm := triggerPop_mem (sampleWR_subset _ _ _ q hq)
    rw [← hpq]
    exact hqm.2
  · rw [List.length_map, hfst]
    apply length_filter_not_mem df _ hnd
    intro i hi
    obtain ⟨p, hp, hpi⟩ := List.mem_map.mp hi
    refine List.mem_map.mpr ⟨p, ?_, hpi⟩
    rcases List.mem_append.mp hp with hm | hm
    · obtain ⟨c, _, hpc⟩ := sampleTriggers_ok_mem _ _ _ _ _ hs0 p hm
      exact filterTotal_subset (triggerPop_mem hpc).1
    · rw [hntdef] at hm
      exact filterTotal_subset (triggerPop_mem (sampleWR_subset _ _ _ p hm)).1

/-- Witness for the amended C2: the concrete run draws 5 + 5 rows and leaves
12 - 10 evaluation rows. -/
theorem training_eval_counts_witness :
    sW.length =
      (trigger_cols (filterTotal dfW) 5).length * 5 +
        (trigger_cols (filterTotal dfW) 5).length * 5 ∧
    fW.length = dfW.length - ((sW.map Prod.fst).dedup).length :=
  ⟨(training_eval_counts dfW 5 99 sW fW iW (by decide) rfl).1,
   (training_eval_counts dfW 5 99 sW fW iW (by decide) rfl).2.2.2⟩

/-! ### C5: what the in_train_set record actually counts -/

/-- C5 counterexample: in `dfC5` the category `bankruptcy` occurs 12 times
in the full dataset and the threshold is 5, yet the returned `in_train_set`
record marks it `false`: the code counts occurrences over the
`Total`-filtered subset (where `bankruptcy` occurs 0 times), not over the
full dataset. -/
theorem in_train_full_count_cex :
    (5 : Nat) < colSum dfC5 ("bankruptcy") ∧
    (downsampling_data_set dfC5 5 99).toOption.map
      (fun r => lookupB r.2.2 ("bankruptcy")) = some (some false) := by
  refine ⟨by decide, rfl⟩

/-- C5 (amended): for every successful run, the `in_train_set` record marks
a category true if and only if that category's occurrence count over the
`Total`-in-{1,2} filtered subset (not the full dataset) strictly exceeds
the threshold. -/
theorem in_train_marks_filtered_count (df : Frame) (n rs : Nat)
    (samples filtered : LFrame) (itr : List (String × Bool))
    (h : downsampling_data_set df n rs = Except.ok (samples, filtered, itr))
    (c : String) (b : Bool) (hm : (c, b) ∈ itr) :
    b = true ↔ n < colSum (filterTotal df) c := by
  obtain ⟨s0, nt, hs0, hnt, hsamp, hfilt, hitr, hne⟩ := downsampling_ok h
  subst hitr
  obtain ⟨c2, hc2, heq⟩ := List.mem_map.mp hm
  rw [Prod.mk.injEq] at heq
  obtain ⟨hc, hb⟩ := heq
  subst hc
  rw [← hb]
  exact decide_eq_true_iff

/-- Witness for the amended C5: on the reference run, `nontrigger` is marked
true and its filtered-subset count 6 exceeds the threshold 5. -/
theorem in_train_marks_filtered_count_witness :
    (true = true ↔ 5 < colSum (filterTotal dfW) ("nontrigger")) :=
  in_train_marks_filtered_count dfW 5 99 sW fW iW rfl ("nontrigger") true
    (by decide)

/-! ### C6: the derived binary label -/

/-- C6: for every row of the returned training set and evaluation set,
assuming the `nontrigger` indicator is 0 or 1, the derived `istrigger`
column is 0 if and only if the row's `nontrigger` indicator is 1. -/
theorem istrigger_consistent (df : Frame) (n rs : Nat)
    (samples filtered : LFrame) (itr : List (String × Bool))
    (h : downsampling_data_set df n rs = Except.ok (samples, filtered, itr))
    (hind : ∀ p ∈ df, p.2.get ("nontrigger") ≤ 1) :
    ∀ p : Nat × Row × Nat, (p ∈ samples ∨ p ∈ filtered) →
      (p.2.2 = 0 ↔ p.2.1.get ("nontrigger") = 1) := by
  obtain ⟨s0, nt, hs0, hnt, hsamp, hfilt, hitr, hne⟩ := downsampling_ok h
  obtain ⟨_, hntdef⟩ := resample_ok_iff.mp hnt
  subst hsamp
  subst hfilt
  intro p hp
  have hq : ∃ q ∈ df, p = addIst q := by
    rcases hp with hp | hp
    · obtain ⟨q, hq, hpq⟩ := List.mem_map.mp hp
      refine ⟨q, ?_, hpq.symm⟩
      rcases List.mem_append.mp hq with hm | hm
      · obtain ⟨c, _, hpc⟩ := sampleTriggers_ok_mem _ _ _ _ _ hs0 q hm
        exact filterTotal_subset (triggerPop_mem hpc).1
      · rw [hntdef] at hm
        exact filterTotal_subset (triggerPop_mem (sampleWR_subset _ _ _ q hm)).1
    · obtain ⟨q, hq, hpq⟩ := List.mem_map.mp hp
      exact ⟨q, (List.mem_filter.mp hq).1, hpq.symm⟩
  obtain ⟨q, hqdf, rfl⟩ := hq
  have hle := hind q hqdf
  show istrigger q.2 = 0 ↔ q.2.get ("nontrigger") = 1
  unfold istrigger
  split <;> omega

/-- Witness for C6: the first training-set row of the reference run. -/
theorem istrigger_consistent_witness :
    (sW.getD 0 (0, rowNT, 0)).2.2 = 0 ↔
      (sW.getD 0 (0, rowNT, 0)).2.1.get ("nontrigger") = 1 :=
  istrigger_consistent dfW 5 99 sW fW iW rfl (by decide)
    (sW.getD 0 (0, rowNT, 0)) (Or.inl (by decide))

/-! ### C7 and C8: the per-category percentage column -/

/-- The column sum over a filtered labelled frame is at most the column sum
over the whole frame. -/
theorem colSumL_filter_le (l : LFrame) (q : Nat × Row × Nat → Bool)
    (c : String) : colSumL (l.filter q) c ≤ colSumL l c := by
  induction l with
  | nil => simp [colSumL]
  | cons p t ih =>
    rw [List.filter_cons]
    split
    · simp only [colSumL, List.map_cons, List.sum_cons] at *
      omega
    · simp only [colSumL, List.map_cons, List.sum_cons] at *
      omega

/-- Membership in the report determines each field of the row from its
category. -/
theorem report_row_shape (pred : Nat → Nat) (filtered : LFrame)
    (itr : List (String × Bool)) (row : ReportRow)
    (hrow : row ∈ misclassification pred filtered itr) :
    ∃ c ∈ categories, ∃ b, lookupB itr c = some b ∧
      row = { category := c,
              full_test_set := colSumL filtered c,
              num_misclassified := colSumL (misclassifiedRows pred filtered) c,
              percent_misclassified := round1p (pdiv
                (100 * ((colSumL (misclassifiedRows pred filtered) c : Nat) : Rat))
                ((colSumL filtered c : Nat) : Rat)),
              in_train_set := if b then "yes" else "no" } := by
  obtain ⟨c, hc, hsome⟩ := List.mem_filterMap.mp hrow
  refine ⟨c, hc, ?_⟩
  cases hb : lookupB itr c with
  | none => rw [hb] at hsome; cases hsome
  | some b =>
    rw [hb] at hsome
    injection hsome with hsome
    exact ⟨b, rfl, hsome.symm⟩

/-- C7: for every category in the misclassification report with a positive
evaluation-set occurrence count, the reported `percent_misclassified` is
`100 * num_misclassified / full_test_set` rounded to one decimal place. -/
theorem percent_formula (pred : Nat → Nat) (filtered : LFrame)
    (itr : List (String × Bool)) (row : ReportRow)
    (hrow : row ∈ misclassification pred filtered itr)
    (hpos : 0 < row.full_test_set) :
    row.percent_misclassified =
      PandasFloat.val (round1
        (100 * (row.num_misclassified : Rat) / (row.full_test_set : Rat))) := by
  obtain ⟨c, _, b, _, hdef⟩ := report_row_shape pred filtered itr row hrow
  subst hdef
  simp only at hpos ⊢
  have hne : ((colSumL filtered c : Nat) : Rat) ≠ 0 := by
    rw [Nat.cast_ne_zero]
    omega
  rw [pdiv, if_neg hne, round1p, mul_div_assoc]

/-- Witness data for C7: a one-row evaluation set, misclassified by the
constant-zero predictor. -/
def fltW7 : LFrame := [(0, rowLD, 1)]

/-- Witness in_train_set record for C7. -/
def itrW7 : List (String × Bool) := [("loan_default", true)]

/-- Witness predictor for C7 (predicts 0 everywhere). -/
def predW7 : Nat → Nat := fun _ => 0

/-- The single report row of the C7 witness run. -/
def rowW7 : ReportRow :=
  { category := "loan_default", full_test_set := 1, num_misclassified := 1,
    percent_misclassified := round1p (pdiv (100 * ((1 : Nat) : Rat))
      (((1 : Nat) : Rat))),
    in_train_set := "yes" }

/-- Witness for C7: the concrete report row satisfies the rounding formula. -/
theorem percent_formula_witness :
    rowW7.percent_misclassified =
      PandasFloat.val (round1
        (100 * (rowW7.num_misclassified : Rat) / (rowW7.full_test_set : Rat))) :=
  percent_formula predW7 fltW7 itrW7 rowW7
    (by rw [show misclassification predW7 fltW7 itrW7 = [rowW7] from rfl]
        exact List.mem_singleton.mpr rfl)
    (by decide)

/-- C8: a category with zero occurrences in the evaluation set produces no
division error (pandas division yields `nan` rather than raising) and its
`percent_misclassified` is the undefined value `nan`. -/
theorem zero_total_nan (pred : Nat → Nat) (filtered : LFrame)
    (itr : List (String × Bool)) (row : ReportRow)
    (hrow : row ∈ misclassification pred filtered itr)
    (h0 : row.full_test_set = 0) :
    row.percent_misclassified = PandasFloat.nan := by
  obtain ⟨c, _, b, _, hdef⟩ := report_row_shape pred filtered itr row hrow
  subst hdef
  simp only at h0 ⊢
  have hnum : colSumL (misclassifiedRows pred filtered) c = 0 := by
    have := colSumL_filter_le filtered (fun p => !(pred p.1 == p.2.2)) c
    unfold misclassifiedRows
    omega
  rw [hnum, h0]
  norm_num [pdiv, round1p]

/-- Witness evaluation set for C8 (no `bankruptcy` occurrences). -/
def fltW8 : LFrame := [(0, rowLD, 1)]

/-- Witness in_train_set record for C8. -/
def itrW8 : List (String × Bool) := [("bankruptcy", false)]

/-- The single report row of the C8 witness run: `bankruptcy` has zero
evaluation-set occurrences. -/
def rowW8 : ReportRow :=
  { category := "bankruptcy", full_test_set := 0, num_misclassified := 0,
    percent_misclassified := round1p (pdiv (100 * ((0 : Nat) : Rat))
      (((0 : Nat) : Rat))),
    in_train_set := "no" }

/-- Witness for C8: the concrete zero-occurrence category reports `nan`. -/
theorem zero_total_nan_witness :
    rowW8.percent_misclassified = PandasFloat.nan :=
  zero_total_nan predW7 fltW8 itrW8 rowW8
    (by rw [show misclassification predW7 fltW8 itrW8 = [rowW8] from rfl]
        exact List.mem_singleton.mpr rfl)
    (by decide)

/-! ### C9: the headline small-class metric -/

/-- The sums of `num_misclassified` and `full_test_set` over the report rows
annotated `no` are the per-category column sums over exactly the categories
whose `in_train_set` entry is `false`. -/
theorem reportRows_no_sums (cols : List String) (f m : LFrame)
    (itr : List (String × Bool)) :
    ((((reportRows cols f m itr).filter
        (fun r => r.in_train_set == "no")).map
        (fun r => r.num_misclassified)).sum =
      ((cols.filter (fun c => lookupB itr c == some false)).map
        (fun c => colSumL m c)).sum) ∧
    ((((reportRows cols f m itr).filter
        (fun r => r.in_train_set == "no")).map
        (fun r => r.full_test_set)).sum =
      ((cols.filter (fun c => lookupB itr c == some false)).map
        (fun c => colSumL f c)).sum) := by
  induction cols with
  | nil => exact ⟨rfl, rfl⟩
  | cons c rest ih =>
    unfold reportRows
    rw [List.filterMap_cons]
    unfold reportRows at ih
    cases hb : lookupB itr c with
    | none =>
      simp only [List.filter_cons, hb]
      exact ih
    | some b =>
      cases b with
      | true =>
        simp only [List.filter_cons, hb]
        exact ih
      | false =>
        obtain ⟨ih1, ih2⟩ := ih
        constructor
        · simp only [List.filter_cons, hb, List.map_cons, List.sum_cons,
            show ((if (false : Bool) = true then "yes" else "no") == "no") =
              true from rfl,
            show ((some false : Option Bool) == some false) = true from rfl,
            if_true]
          omega
        · simp only [List.filter_cons, hb, List.map_cons, List.sum_cons,
            show ((if (false : Bool) = true then "yes" else "no") == "no") =
              true from rfl,
            show ((some false : Option Bool) == some false) = true from rfl,
            if_true]
          omega

/-- The reference misclassification report of the claim: the five categories
marked `no` have evaluation-set totals 7, 7, 44, 9, 3 and misclassified
counts 0, 2, 2, 2, 0; one `yes` category is included to show it is
excluded from the headline metric. -/
def refReport : List ReportRow :=
  [{ category := "loan_default", full_test_set := 324, num_misclassified := 5,
     percent_misclassified := round1p (pdiv (100 * 5) 324),
     in_train_set := "yes" },
   { category := "aggregate_dscr_fall", full_test_set := 7,
     num_misclassified := 0,
     percent_misclassified := round1p (pdiv (100 * 0) 7),
     in_train_set := "no" },
   { category := "mezzanine_outstanding", full_test_set := 7,
     num_misclassified := 2,
     percent_misclassified := round1p (pdiv (100 * 2) 7),
     in_train_set := "no" },
   { category := "bankruptcy", full_test_set := 44, num_misclassified := 2,
     percent_misclassified := round1p (pdiv (100 * 2) 44),
     in_train_set := "no" },
   { category := "sff", full_test_set := 9, num_misclassified := 2,
     percent_misclassified := round1p (pdiv (100 * 2) 9),
     in_train_set := "no" },
   { category := "delayed_repayment", full_test_set := 3,
     num_misclassified := 0,
     percent_misclassified := round1p (pdiv (100 * 0) 3),
     in_train_set := "no" }]

/-- C9: the headline metric equals `1 - (sum of num_misclassified / sum of
full_test_set)` taken over exactly the report categories annotated
`in_train_set == 'no'`; and on the reference counts (totals 7, 7, 44, 9, 3,
misclassified 0, 2, 2, 2, 0) it equals `1 - 6/70`, which prints as `91.4`
after scaling by 100 and rounding to one decimal place. -/
theorem headline_metric :
    (∀ (pred : Nat → Nat) (filtered : LFrame) (itr : List (String × Bool)),
      small_class_predict_correct (misclassification pred filtered itr) =
        oneMinus (pdiv
          (((((categories.filter (fun c => lookupB itr c == some false))).map
              (fun c => colSumL (misclassifiedRows pred filtered) c)).sum : Nat) : Rat)
          (((((categories.filter (fun c => lookupB itr c == some false))).map
              (fun c => colSumL filtered c)).sum : Nat) : Rat))) ∧
    small_class_predict_correct refReport = PandasFloat.val (1 - 6 / 70) ∧
    round1 (100 * (1 - (6 : Rat) / 70)) = 457 / 5 := by
  refine ⟨?_, ?_, ?_⟩
  · intro pred filtered itr
    simp only [small_class_predict_correct, misclassification]
    rw [(reportRows_no_sums categories filtered
          (misclassifiedRows pred filtered) itr).1,
        (reportRows_no_sums categories filtered
          (misclassifiedRows pred filtered) itr).2]
  · have h70 : ((70 : Nat) : Rat) ≠ 0 := by norm_num
    show oneMinus (pdiv (((6 : Nat) : Rat)) (((70 : Nat) : Rat))) =
      PandasFloat.val (1 - 6 / 70)
    rw [pdiv, if_neg h70]
    simp only [oneMinus]
    norm_num
  · have hfd : Int.fdiv 6400 7 = 914 := rfl
    norm_num [round1, rhe, ratFloor, hfd]

/-! ### C10: the per-category draw cannot fail -/

/-- With 0/1 indicators and away from the `Total` column, a column sum
counts the rows whose indicator is 1. -/
theorem colSum_eq_popLength (ds : Frame) (c : String) (hc : c ≠ "Total") :
    (∀ p ∈ ds, p.2.get c ≤ 1) →
      colSum ds c = (triggerPop ds c).length := by
  induction ds with
  | nil => intro _; simp [colSum, triggerPop, hc]
  | cons p t ih =>
    intro hind
    have hp := hind p (List.mem_cons_self _ _)
    have ht : ∀ q ∈ t, q.2.get c ≤ 1 :=
      fun q hq => hind q (List.mem_cons_of_mem _ hq)
    have iht := ih ht
    rw [colSum, if_neg hc] at iht ⊢
    rw [List.map_cons, List.sum_cons]
    unfold triggerPop at iht ⊢
    rw [List.filter_cons]
    rcases Nat.le_one_iff_eq_zero_or_eq_one.mp hp with h0 | h1
    · rw [h0]
      simp only [h0, Nat.zero_add]
      rw [if_neg (by simp)]
      exact iht
    · rw [h1]
      rw [if_pos (by simp)]
      rw [List.length_cons]
      omega

/-- C10: every category selected into the large-category set has, assuming
0/1 indicators, strictly more than `n` rows with its indicator set in the
filtered dataset, so the without-replacement draw of `n` rows from that
subset succeeds: `resample`'s error branch is unreachable for the
trigger-category draws. -/
theorem trigger_draw_safe (df : Frame) (n rs : Nat) (c : String)
    (hind : ∀ p ∈ filterTotal df, p.2.get c ≤ 1)
    (hc : c ∈ trigger_cols (filterTotal df) n) :
    n < (triggerPop (filterTotal df) c).length ∧
    resample (triggerPop (filterTotal df) c) n rs =
      Except.ok (sampleWR rs n (triggerPop (filterTotal df) c)) := by
  have h1 := List.mem_filter.mp hc
  have h2 := List.mem_filter.mp h1.1
  have hcnot : c ≠ "Total" := by
    intro hEq
    subst hEq
    simp at h1
  have hcount : n < colSum (filterTotal df) c := by
    have := h2.2
    simpa using this
  have heq := colSum_eq_popLength (filterTotal df) c hcnot hind
  constructor
  · omega
  · unfold resample
    rw [if_neg (by omega)]

/-- Witness for C10: on the reference dataset, `loan_default` is a large
category (6 > 5 filtered occurrences) and its draw of 5 rows succeeds. -/
theorem trigger_draw_safe_witness :
    5 < (triggerPop (filterTotal dfW) ("loan_default")).length ∧
    resample (triggerPop (filterTotal dfW) ("loan_default")) 5 99 =
      Except.ok (sampleWR 99 5 (triggerPop (filterTotal dfW) ("loan_default"))) :=
  trigger_draw_safe dfW 5 99 ("loan_default") (by decide) (by decide)

end Legalese
